import Mathlib

/-!
Shallow embedding of `src/client/src/lib/srl-tax-calculator.ts`.

Modelling conventions:
* JavaScript numbers are modelled as rationals (`ℚ`); `Math.round`,
  `Math.ceil`, `Math.min`, `Math.max`, `Math.abs` become the corresponding
  exact operations on `ℚ`.
* Optional input fields become `Option` values; the JS idiom `x || d`
  (which also replaces an explicit `0` by the default, since `0` is falsy)
  is `jsOrQ` / `jsOrI`; the JS truthiness test `x ? a : b` on an optional
  number is `isTruthyQ`.
* Date strings `"dd/mm/yyyy"` are represented by their components (`DMY`);
  the code compares dates by parsing them to timestamps, which for valid
  calendar dates is the lexicographic order on (year, month, day), here the
  integer key `dateKey`.  The current wall-clock instant read by
  `new Date()` in `createPaymentSchedule` is made an explicit parameter
  `today : ℤ` living in the same key space.
* `new Date(unparseableString).getFullYear()` evaluates to `NaN`, and every
  comparison of `NaN` is false; the resolved start year is therefore a
  `YearV` (a number or `NaN`), with comparison operations that are false on
  `NaN`.  An input's `startDate` field is `Option (Option ℤ)`:
  `some (some y)` is a parseable date string with year `y`, `some none` an
  unparseable non-empty string, `none` an absent (or empty, hence falsy)
  string.
* JS `Array.prototype.sort` is stable; `sortByKey` is a stable insertion
  sort by an integer key, which agrees with any stable sort under the same
  comparator.
-/

namespace SRLTax

/-- JS `Math.round`: round half toward positive infinity. -/
def jsRound (q : ℚ) : ℚ := ((⌊q + 1/2⌋ : ℤ) : ℚ)

/-- `Math.round(x * 100) / 100`: round a currency amount to two decimals. -/
def round2 (q : ℚ) : ℚ := jsRound (q * 100) / 100

/-- JS `o || d` on an optional number: `undefined` and `0` both yield `d`. -/
def jsOrQ (o : Option ℚ) (d : ℚ) : ℚ :=
  match o with
  | none => d
  | some v => if v = 0 then d else v

/-- JS `o || d` on an optional integer. -/
def jsOrI (o : Option ℤ) (d : ℤ) : ℤ :=
  match o with
  | none => d
  | some v => if v = 0 then d else v

/-- JS truthiness of an optional number: `undefined` and `0` are falsy. -/
def isTruthyQ (o : Option ℚ) : Bool :=
  match o with
  | none => false
  | some v => decide (v ≠ 0)

/-- A calendar date `dd/mm/yyyy` by its components. -/
structure DMY where
  day : ℤ
  month : ℤ
  year : ℤ
deriving DecidableEq

/-- Timestamp-ordering key of a date: for valid dates, `Date.getTime`
ordering is the lexicographic (year, month, day) ordering. -/
def dateKey (d : DMY) : ℤ := d.year * 10000 + d.month * 100 + d.day

/-- Stable insertion of `x` in front of the first element with a key
not smaller than `x`'s. -/
def insertByKey (k : α → ℤ) (x : α) : List α → List α
  | [] => [x]
  | y :: ys => if k x ≤ k y then x :: y :: ys else y :: insertByKey k x ys

/-- Stable sort by an integer key (the semantics of JS `sort` with the
numeric date comparator used in the source). -/
def sortByKey (k : α → ℤ) : List α → List α
  | [] => []
  | x :: xs => insertByKey k x (sortByKey k xs)

/-- The input record (`SRLTaxCalculationInput`). -/
structure SRLTaxCalculationInput where
  revenue : ℚ
  costs : ℚ
  employees : ℚ
  employeeCosts : ℚ
  adminSalary : ℚ
  region : String
  businessSector : String
  vatRegime : String
  hasVatDebt : Bool
  vatDebt : ℚ
  currentBalance : ℚ
  startDate : Option (Option ℤ)
  startYear : Option ℤ
  vatOnSales : Option ℚ
  vatOnPurchases : Option ℚ
  fiscalYear : Option ℤ
  revenue2024 : Option ℚ
  costs2024 : Option ℚ
  utile2024 : Option ℚ
  utile2023 : Option ℚ
  investimentiPrevisti : Option ℚ
  mediaULA2022_2024 : Option ℚ
  dipendentiTempo2024 : Option ℚ
  nuoveAssunzioni2025 : Option ℚ
  hasUsedCIG : Option Bool
  interessiAttivi : Option ℚ
  interessiPassivi : Option ℚ
  rolFiscale : Option ℚ
  perditePregresseOrdinarie : Option ℚ
  perditePrimi3Esercizi : Option ℚ
  costoNuoveAssunzioni : Option ℚ
  incrementoCostoPersonale : Option ℚ
deriving DecidableEq

/-- The twenty entries of the regional production-tax (IRAP) percentage
object literal (`IRAP_RATES`), in source order. -/
def IRAP_RATES_table : List (String × ℚ) :=
  [("PIEMONTE", 3.9), ("VALLE_AOSTA", 3.9), ("LOMBARDIA", 3.9), ("TRENTINO", 2.68),
   ("VENETO", 4.08), ("FRIULI", 3.9), ("LIGURIA", 3.9), ("EMILIA_ROMAGNA", 4.65),
   ("TOSCANA", 3.9), ("UMBRIA", 3.9), ("MARCHE", 4.73), ("LAZIO", 4.82),
   ("ABRUZZO", 4.82), ("MOLISE", 4.82), ("CAMPANIA", 4.97), ("PUGLIA", 4.82),
   ("BASILICATA", 3.9), ("CALABRIA", 4.82), ("SICILIA", 3.9), ("SARDEGNA", 2.93)]

/-- `IRAP_RATES[region]`: property lookup in the rate object. -/
def IRAP_RATES (region : String) : Option ℚ :=
  (IRAP_RATES_table.find? (fun p => p.1 == region)).map Prod.snd

/-- One entry of the `VAT_REGIMES` table. -/
structure VatRegimeInfo where
  label : String
  frequency : ℤ
  description : String
deriving DecidableEq

/-- Filing-frequency table (`VAT_REGIMES`). -/
def VAT_REGIMES (code : String) : Option VatRegimeInfo :=
  if code = "MENSILE" then some ⟨"Liquidazione Mensile", 12, "Obbligo per fatturato > €400k"⟩
  else if code = "TRIMESTRALE" then
    some ⟨"Liquidazione Trimestrale", 4, "Standard per fatturato ≤ €400k"⟩
  else none

/-- The conditionally attached `details` payload of the premiale check. -/
structure PremialeDetails where
  condition1_utiliAccantonati : Bool
  condition2_investimenti : Bool
  condition3_livelloOccupazionale : Bool
  condition4_nuoveAssunzioni : Bool
  condition5_noCIG : Bool
  requiredInvestment : ℚ
  actualInvestment : ℚ
  requiredReserve : ℚ
  incrementoMinimo : ℚ
deriving DecidableEq

/-- Return value of `checkIresPremialeConditions` (`details` is `null`
when the fiscal year is not 2025). -/
structure PremialeCheck where
  isApplicable : Bool
  details : Option PremialeDetails
deriving DecidableEq

def utile2024Q (i : SRLTaxCalculationInput) : ℚ := jsOrQ i.utile2024 0

/-- `requiredReserve = utile2024 * 0.8`. -/
def requiredReserveQ (i : SRLTaxCalculationInput) : ℚ := utile2024Q i * 0.8

/-- Condizione 1: accantonamento almeno 80% utili 2024 a riserva. -/
def condition1 (i : SRLTaxCalculationInput) : Bool :=
  decide (0 < utile2024Q i) && decide (0 < requiredReserveQ i)

/-- `Math.max(investmentFromReserve, investmentFrom2023, 20000)`. -/
def requiredInvestmentQ (i : SRLTaxCalculationInput) : ℚ :=
  max (requiredReserveQ i * 0.3) (max (jsOrQ i.utile2023 0 * 0.24) 20000)

/-- Condizione 2: investimenti qualificati. -/
def condition2 (i : SRLTaxCalculationInput) : Bool :=
  decide (requiredInvestmentQ i ≤ jsOrQ i.investimentiPrevisti 0)

/-- Condizione 3: mantenimento livelli occupazionali. -/
def condition3 (i : SRLTaxCalculationInput) : Bool :=
  decide (0 < jsOrQ i.mediaULA2022_2024 0) &&
    decide (jsOrQ i.mediaULA2022_2024 0 ≤ jsOrQ i.dipendentiTempo2024 0)

/-- `Math.max(1, Math.ceil(dipendenti2024 * 0.01))`. -/
def incrementoMinimoQ (i : SRLTaxCalculationInput) : ℚ :=
  max 1 ((⌈jsOrQ i.dipendentiTempo2024 0 * (0.01 : ℚ)⌉ : ℤ) : ℚ)

/-- Condizione 4: nuove assunzioni a tempo indeterminato nel 2025. -/
def condition4 (i : SRLTaxCalculationInput) : Bool :=
  decide (incrementoMinimoQ i ≤ jsOrQ i.nuoveAssunzioni2025 0)

/-- Condizione 5: assenza ricorso CIG (`!input.hasUsedCIG`). -/
def condition5 (i : SRLTaxCalculationInput) : Bool := !(i.hasUsedCIG.getD false)

/-- `checkIresPremialeConditions`: only for `input.fiscalYear === 2025`,
then all five conditions cumulatively. -/
def checkIresPremialeConditions (i : SRLTaxCalculationInput) : PremialeCheck :=
  if i.fiscalYear ≠ some 2025 then ⟨false, none⟩
  else
    ⟨condition1 i && condition2 i && condition3 i && condition4 i && condition5 i,
     some ⟨condition1 i, condition2 i, condition3 i, condition4 i, condition5 i,
           requiredInvestmentQ i, jsOrQ i.investimentiPrevisti 0,
           requiredReserveQ i, incrementoMinimoQ i⟩⟩

/-- Return value of `calculateROLAndInterests`. -/
structure RolDetails where
  rolFiscale : ℚ
  interessiAttiviTotali : ℚ
  interessiPassiviDeducibili : ℚ
  interessiPassiviIndeducibili : ℚ
  limitROL : ℚ
deriving DecidableEq

/-- `calculateROLAndInterests`: passive interest is covered first by active
interest, then by 30% of the fiscal ROL (estimated as 15% of revenue when
not supplied). -/
def calculateROLAndInterests (i : SRLTaxCalculationInput) : RolDetails :=
  let interessiAttivi := jsOrQ i.interessiAttivi 0
  let interessiPassivi := jsOrQ i.interessiPassivi 0
  let rolFiscale := jsOrQ i.rolFiscale (i.revenue * 0.15)
  let interessiPassiviCopertiDaAttivi := min interessiPassivi interessiAttivi
  let eccedenzaInteressiPassivi := interessiPassivi - interessiPassiviCopertiDaAttivi
  let limitROL := rolFiscale * 0.3
  let interessiPassiviCopertiDaROL := min eccedenzaInteressiPassivi limitROL
  let interessiPassiviDeducibili := interessiPassiviCopertiDaAttivi + interessiPassiviCopertiDaROL
  ⟨rolFiscale, interessiAttivi, interessiPassiviDeducibili,
   interessiPassivi - interessiPassiviDeducibili, limitROL⟩

/-- Return value of `calculateLossesUsage`. -/
structure LossesUsage where
  lossesUsed : ℚ
  remainingLosses : ℚ
deriving DecidableEq

/-- `Math.min(perditePrimi3, reddito)`. -/
def perditePrimi3UsedQ (reddito : ℚ) (i : SRLTaxCalculationInput) : ℚ :=
  min (jsOrQ i.perditePrimi3Esercizi 0) reddito

/-- `redditoResiduoDopoPrimi3 * 0.8`. -/
def limiteOrdinaryQ (reddito : ℚ) (i : SRLTaxCalculationInput) : ℚ :=
  (reddito - perditePrimi3UsedQ reddito i) * 0.8

/-- `Math.min(perditeOrdinarie, limiteOrdinary)`. -/
def perditeOrdinarieUsedQ (reddito : ℚ) (i : SRLTaxCalculationInput) : ℚ :=
  min (jsOrQ i.perditePregresseOrdinarie 0) (limiteOrdinaryQ reddito i)

/-- `calculateLossesUsage`: first-three-year losses at 100%, then ordinary
losses under the 80% ceiling; nothing is consumed on non-positive income. -/
def calculateLossesUsage (reddito : ℚ) (i : SRLTaxCalculationInput) : LossesUsage :=
  if reddito ≤ 0 then ⟨0, jsOrQ i.perditePregresseOrdinarie 0⟩
  else
    ⟨perditePrimi3UsedQ reddito i + perditeOrdinarieUsedQ reddito i,
     jsOrQ i.perditePregresseOrdinarie 0 - perditeOrdinarieUsedQ reddito i⟩

/-- `calculateSuperDeduction`: 20% of the lesser of new-hire cost and total
personnel-cost increase; zero when the new-hire cost is zero. -/
def calculateSuperDeduction (i : SRLTaxCalculationInput) : ℚ :=
  let costoNuove := jsOrQ i.costoNuoveAssunzioni 0
  let incrementoCosto := jsOrQ i.incrementoCostoPersonale 0
  if costoNuove = 0 then 0 else min costoNuove incrementoCosto * 0.2

/-- `calculateIrapDeductions`: 30% of employee costs plus a flat 2000 for
the FRIULI region. -/
def calculateIrapDeductions (i : SRLTaxCalculationInput) : ℚ :=
  i.employeeCosts * 0.3 + (if i.region = "FRIULI" then 2000 else 0)

/-- One VAT deadline `{date, amount, type}`. -/
structure VatDeadline where
  date : DMY
  amount : ℚ
  type : String
deriving DecidableEq

/-- `months[month] || ''` of the Italian month-name array. -/
def getMonthName (month : ℕ) : String :=
  match month with
  | 0 => "Gennaio" | 1 => "Febbraio" | 2 => "Marzo" | 3 => "Aprile"
  | 4 => "Maggio" | 5 => "Giugno" | 6 => "Luglio" | 7 => "Agosto"
  | 8 => "Settembre" | 9 => "Ottobre" | 10 => "Novembre" | 11 => "Dicembre"
  | _ => ""

/-- `calculateVATDeadlines`: four quarterly dates for `TRIMESTRALE`, twelve
monthly dates for `MENSILE`, nothing for any other code.  The `frequency`
argument is passed but, as in the source, never read. -/
def calculateVATDeadlines (vatRegime : String) (totalVatAmount : ℚ) (frequency : ℤ)
    (fiscalYear : ℤ) : List VatDeadline :=
  if vatRegime = "TRIMESTRALE" then
    let quarterlyAmount := totalVatAmount / 4
    [⟨⟨16, 4, fiscalYear⟩, quarterlyAmount, "IVA Q1 " ++ toString fiscalYear⟩,
     ⟨⟨16, 7, fiscalYear⟩, quarterlyAmount, "IVA Q2 " ++ toString fiscalYear⟩,
     ⟨⟨16, 10, fiscalYear⟩, quarterlyAmount, "IVA Q3 " ++ toString fiscalYear⟩,
     ⟨⟨16, 1, fiscalYear + 1⟩, quarterlyAmount, "IVA Q4 " ++ toString fiscalYear⟩]
  else if vatRegime = "MENSILE" then
    (List.range 12).map (fun (m : ℕ) =>
      let month : ℤ := (m : ℤ) + 1
      let paymentMonth := if month = 12 then 1 else month + 1
      let paymentYear := if month = 12 then fiscalYear + 1 else fiscalYear
      ⟨⟨16, paymentMonth, paymentYear⟩, totalVatAmount / 12,
       "IVA " ++ getMonthName m ++ " " ++ toString fiscalYear⟩)
  else
    (fun _ => []) frequency

/-- Event categories of the fiscal calendar and payment schedule. -/
inductive Category where
  | IRES | IRAP | IVA | INPS | ACCUMULO
deriving DecidableEq

/-- One event of `calendar2025`. -/
structure CalendarEvent where
  date : DMY
  amount : ℚ
  type : String
  category : Category
  description : String
deriving DecidableEq

/-- `createFiscalCalendar2025`: VAT deadlines, the four installments (only
for pre-existing businesses and only when positive), and four quarterly
INPS dates, sorted ascending by date. -/
def createFiscalCalendar2025 (iresFirstAcconto iresSecondAcconto irapFirstAcconto
    irapSecondAcconto : ℚ) (vatDeadlines : List VatDeadline) (inpsTotalAmount : ℚ)
    (fiscalYear : ℤ) (isNewBusiness2025 : Bool) : List CalendarEvent :=
  let vatEvents : List CalendarEvent :=
    vatDeadlines.map (fun d => ⟨d.date, d.amount, d.type, Category.IVA, d.type⟩)
  let iresIrapEvents : List CalendarEvent :=
    if isNewBusiness2025 then [] else
      (if 0 < iresFirstAcconto then
        [⟨⟨30, 6, 2025⟩, iresFirstAcconto, "IRES I Acconto 2025", Category.IRES,
          "Primo acconto IRES 2025 (40% imposta 2024)"⟩] else []) ++
      (if 0 < irapFirstAcconto then
        [⟨⟨30, 6, 2025⟩, irapFirstAcconto, "IRAP I Acconto 2025", Category.IRAP,
          "Primo acconto IRAP 2025 (40% imposta 2024)"⟩] else []) ++
      (if 0 < iresSecondAcconto then
        [⟨⟨30, 11, 2025⟩, iresSecondAcconto, "IRES II Acconto 2025", Category.IRES,
          "Secondo acconto IRES 2025 (60% imposta 2024)"⟩] else []) ++
      (if 0 < irapSecondAcconto then
        [⟨⟨30, 11, 2025⟩, irapSecondAcconto, "IRAP II Acconto 2025", Category.IRAP,
          "Secondo acconto IRAP 2025 (60% imposta 2024)"⟩] else [])
  let inpsQuarterly := inpsTotalAmount / 4
  let inpsEvents : List CalendarEvent :=
    if 0 < inpsQuarterly then
      [⟨⟨16, 5, fiscalYear⟩, inpsQuarterly, "INPS I Trim " ++ toString fiscalYear,
        Category.INPS, "Contributi INPS anno " ++ toString fiscalYear ++ " - I trimestre"⟩,
       ⟨⟨20, 8, fiscalYear⟩, inpsQuarterly, "INPS II Trim " ++ toString fiscalYear,
        Category.INPS, "Contributi INPS anno " ++ toString fiscalYear ++ " - II trimestre"⟩,
       ⟨⟨16, 11, fiscalYear⟩, inpsQuarterly, "INPS III Trim " ++ toString fiscalYear,
        Category.INPS, "Contributi INPS anno " ++ toString fiscalYear ++ " - III trimestre"⟩,
       ⟨⟨16, 2, fiscalYear + 1⟩, inpsQuarterly, "INPS IV Trim " ++ toString fiscalYear,
        Category.INPS, "Contributi INPS anno " ++ toString fiscalYear ++ " - IV trimestre"⟩]
    else []
  sortByKey (fun e => dateKey e.date) (vatEvents ++ iresIrapEvents ++ inpsEvents)

/-- An event of the merged stream replayed by `createPaymentSchedule`. -/
structure PreEvent where
  date : DMY
  amount : ℚ
  type : String
  category : Category
  description : String
  isIncome : Bool
deriving DecidableEq

/-- One row of the returned `paymentSchedule`. -/
structure ScheduleRow where
  date : DMY
  amount : ℚ
  type : String
  category : Category
  description : String
  previousBalance : ℚ
  newBalance : ℚ
  deficit : ℚ
  isIncome : Bool
  requiredPayment : ℚ
deriving DecidableEq

/-- The running balance after one event of the replay loop: deposits are
added; an obligation that would drive the balance negative clamps it to 0. -/
def stepBalance (balance : ℚ) (e : PreEvent) : ℚ :=
  if e.isIncome then balance + e.amount
  else if balance - e.amount < 0 then 0 else balance - e.amount

/-- The `requiredPayment` of one row before rounding: the deposit amount for
income events, otherwise the absolute shortfall if any. -/
def rowRequired (balance : ℚ) (e : PreEvent) : ℚ :=
  if e.isIncome then e.amount
  else if balance - e.amount < 0 then -(balance - e.amount) else 0

/-- One row of the schedule, built from the pre-event balance exactly as the
loop body does: `amount` is recorded unrounded, the monetary row fields are
rounded to two decimals, and `deficit` is computed from the updated running
balance. -/
def mkRow (balance : ℚ) (e : PreEvent) : ScheduleRow :=
  { date := e.date, amount := e.amount, type := e.type, category := e.category,
    description := e.description,
    previousBalance := round2 balance,
    newBalance := round2 (stepBalance balance e),
    deficit := round2 (if stepBalance balance e < 0 then -(stepBalance balance e) else 0),
    isIncome := e.isIncome,
    requiredPayment := round2 (rowRequired balance e) }

/-- The replay loop of `createPaymentSchedule`. -/
def replay (balance : ℚ) : List PreEvent → List ScheduleRow
  | [] => []
  | e :: es => mkRow balance e :: replay (stepBalance balance e) es

/-- The exact (pre-rounding) running balance before the `k`-th replayed
event. -/
def rawBal (balance : ℚ) : List PreEvent → ℕ → ℚ
  | _, 0 => balance
  | [], _ + 1 => balance
  | e :: es, k + 1 => rawBal (stepBalance balance e) es k

/-- The synthetic monthly deposit events: one per month whose first day is
on or after `today`. -/
def monthlyEvents (monthlyAccrual : ℚ) (fiscalYear today : ℤ) : List PreEvent :=
  (List.range 12).filterMap (fun m =>
    let month : ℤ := (m : ℤ) + 1
    if today ≤ dateKey ⟨1, month, fiscalYear⟩ then
      some ⟨⟨1, month, fiscalYear⟩, monthlyAccrual,
            "Versamento Mensile " ++ toString month, Category.ACCUMULO,
            "Accantonamento mensile consigliato", true⟩
    else none)

/-- A calendar event as an obligation of the replay stream. -/
def calendarToPre (e : CalendarEvent) : PreEvent :=
  ⟨e.date, e.amount, e.type, e.category, e.description, false⟩

/-- `createPaymentSchedule`: merges the future monthly deposits with the
future calendar events, sorts by date, and replays them against the running
balance.  `today` is the wall-clock instant the source reads from
`new Date()`. -/
def createPaymentSchedule (calendar : List CalendarEvent) (currentBalance monthlyAccrual : ℚ)
    (fiscalYear today : ℤ) : List ScheduleRow :=
  replay currentBalance
    (sortByKey (fun e => dateKey e.date)
      (monthlyEvents monthlyAccrual fiscalYear today ++
        (calendar.filter (fun e => decide (today ≤ dateKey e.date))).map calendarToPre))

/-- The resolved start year: a number, or NaN from an unparseable
`startDate` string. -/
inductive YearV where
  | num (y : ℤ)
  | nan
deriving DecidableEq

/-- `y <= n` on a possibly-NaN year (false on NaN, as in JS). -/
def YearV.leNum : YearV → ℤ → Bool
  | YearV.num y, n => decide (y ≤ n)
  | YearV.nan, _ => false

/-- `y >= n` on a possibly-NaN year (false on NaN, as in JS). -/
def YearV.geNum : YearV → ℤ → Bool
  | YearV.num y, n => decide (n ≤ y)
  | YearV.nan, _ => false

/-- `input.startDate ? new Date(input.startDate).getFullYear() : 2025`. -/
def startYearFromDate (i : SRLTaxCalculationInput) : YearV :=
  match i.startDate with
  | some (some y) => YearV.num y
  | some none => YearV.nan
  | none => YearV.num 2025

/-- `input.startYear || (input.startDate ? ... : 2025)`: an explicit
non-zero start year wins; `0` is falsy and falls through. -/
def resolvedStartYear (i : SRLTaxCalculationInput) : YearV :=
  match i.startYear with
  | some y => if y = 0 then startYearFromDate i else YearV.num y
  | none => startYearFromDate i

/-- `const fiscalYear = input.fiscalYear || 2025`. -/
def resolvedFiscalYear (i : SRLTaxCalculationInput) : ℤ := jsOrI i.fiscalYear 2025

/-- `startYear <= 2024` (false when the start year is NaN). -/
def usePreviousYearData (i : SRLTaxCalculationInput) : Bool :=
  YearV.leNum (resolvedStartYear i) 2024

/-- `startYear >= 2025` (false when the start year is NaN). -/
def isNewBusiness2025B (i : SRLTaxCalculationInput) : Bool :=
  YearV.geNum (resolvedStartYear i) 2025

def grossProfitQ (i : SRLTaxCalculationInput) : ℚ := i.revenue - i.costs - i.employeeCosts

/-- Step 1: `Math.max(0, grossProfit - adminSalary)`. -/
def taxableIncomeStep1Q (i : SRLTaxCalculationInput) : ℚ :=
  max 0 (grossProfitQ i - i.adminSalary)

/-- Step 2: subtract the non-deductible passive interest (not floored). -/
def taxableIncomeStep2Q (i : SRLTaxCalculationInput) : ℚ :=
  taxableIncomeStep1Q i - (calculateROLAndInterests i).interessiPassiviIndeducibili

/-- Step 3: `Math.max(0, taxableIncome - superDeductionAmount)`; this is the
`taxableIncome` the result reports. -/
def taxableIncomeQ (i : SRLTaxCalculationInput) : ℚ :=
  max 0 (taxableIncomeStep2Q i - calculateSuperDeduction i)

def lossesUsageOf (i : SRLTaxCalculationInput) : LossesUsage :=
  calculateLossesUsage (taxableIncomeQ i) i

/-- Step 4: `Math.max(0, taxableIncome - lossesUsage.lossesUsed)`. -/
def taxableIncomeAfterLossesQ (i : SRLTaxCalculationInput) : ℚ :=
  max 0 (taxableIncomeQ i - (lossesUsageOf i).lossesUsed)

/-- `(iresPremialeCheck.isApplicable && fiscalYear === 2025) ? 0.20 : 0.24`. -/
def iresRateQ (i : SRLTaxCalculationInput) : ℚ :=
  if (checkIresPremialeConditions i).isApplicable && decide (resolvedFiscalYear i = 2025)
  then 0.20 else 0.24

def iresAmountQ (i : SRLTaxCalculationInput) : ℚ := taxableIncomeAfterLossesQ i * iresRateQ i

/-- `irapBase = revenue - (costs - employeeCosts)`. -/
def irapBaseQ (i : SRLTaxCalculationInput) : ℚ := i.revenue - (i.costs - i.employeeCosts)

def irapTaxableIncomeQ (i : SRLTaxCalculationInput) : ℚ :=
  max 0 (irapBaseQ i - calculateIrapDeductions i)

/-- `(IRAP_RATES[input.region] || 3.9) / 100`. -/
def irapRateQ (i : SRLTaxCalculationInput) : ℚ := jsOrQ (IRAP_RATES i.region) 3.9 / 100

def irapAmountQ (i : SRLTaxCalculationInput) : ℚ := irapTaxableIncomeQ i * irapRateQ i

def vatOnSalesQ (i : SRLTaxCalculationInput) : ℚ := jsOrQ i.vatOnSales (i.revenue * 0.22)

def vatOnPurchasesQ (i : SRLTaxCalculationInput) : ℚ := jsOrQ i.vatOnPurchases (i.costs * 0.22)

/-- `Math.max(0, vatOnSales - vatOnPurchases)` plus the carried VAT debt
when present and positive. -/
def vatAmountQ (i : SRLTaxCalculationInput) : ℚ :=
  max 0 (vatOnSalesQ i - vatOnPurchasesQ i) +
    (if i.hasVatDebt && decide (0 < i.vatDebt) then i.vatDebt else 0)

/-- `VAT_REGIMES[input.vatRegime]?.frequency || 4`. -/
def vatFrequencyOf (i : SRLTaxCalculationInput) : ℤ :=
  jsOrI ((VAT_REGIMES i.vatRegime).map VatRegimeInfo.frequency) 4

/-- `vatAmount / (vatFrequency / 4)`. -/
def vatQuarterlyQ (i : SRLTaxCalculationInput) : ℚ :=
  vatAmountQ i / ((vatFrequencyOf i : ℚ) / 4)

def vatDeadlinesOf (i : SRLTaxCalculationInput) : List VatDeadline :=
  calculateVATDeadlines i.vatRegime (vatAmountQ i) (vatFrequencyOf i) (resolvedFiscalYear i)

/-- Administrator INPS: salary clamped to [18324, 105014], times 24%. -/
def inpsAdminQ (i : SRLTaxCalculationInput) : ℚ :=
  if 0 < i.adminSalary then max 18324 (min i.adminSalary 105014) * 0.24 else 0

/-- Employee INPS: 30% of employee cost when both count and cost are positive. -/
def inpsEmployeesQ (i : SRLTaxCalculationInput) : ℚ :=
  if 0 < i.employees ∧ 0 < i.employeeCosts then i.employeeCosts * 0.30 else 0

def inpsTotalQ (i : SRLTaxCalculationInput) : ℚ := inpsAdminQ i + inpsEmployeesQ i

def totalTaxesQ (i : SRLTaxCalculationInput) : ℚ := iresAmountQ i + irapAmountQ i

def totalDueQ (i : SRLTaxCalculationInput) : ℚ := totalTaxesQ i + inpsTotalQ i + vatAmountQ i

/-- `!isNewBusiness2025 && usePreviousYearData`: the guard of the acconto
block. -/
def accontiGuard (i : SRLTaxCalculationInput) : Bool :=
  !isNewBusiness2025B i && usePreviousYearData i

/-- `input.utile2024 ? input.utile2024 * 0.24 : iresAmount * 0.8`. -/
def baseIresQ (i : SRLTaxCalculationInput) : ℚ :=
  if isTruthyQ i.utile2024 then jsOrQ i.utile2024 0 * 0.24 else iresAmountQ i * 0.8

/-- `input.revenue2024 ? (revenue2024 - (costs2024 || 0)) * irapRate : irapAmount * 0.8`. -/
def baseIrapQ (i : SRLTaxCalculationInput) : ℚ :=
  if isTruthyQ i.revenue2024 then (jsOrQ i.revenue2024 0 - jsOrQ i.costs2024 0) * irapRateQ i
  else irapAmountQ i * 0.8

def iresFirstAccontoQ (i : SRLTaxCalculationInput) : ℚ :=
  if accontiGuard i then baseIresQ i * 0.40 else 0

def iresSecondAccontoQ (i : SRLTaxCalculationInput) : ℚ :=
  if accontiGuard i then baseIresQ i * 0.60 else 0

def irapFirstAccontoQ (i : SRLTaxCalculationInput) : ℚ :=
  if accontiGuard i then baseIrapQ i * 0.40 else 0

def irapSecondAccontoQ (i : SRLTaxCalculationInput) : ℚ :=
  if accontiGuard i then baseIrapQ i * 0.60 else 0

def monthlyAccrualQ (i : SRLTaxCalculationInput) : ℚ := totalDueQ i / 12

def quarterlyPaymentsQ (i : SRLTaxCalculationInput) : ℚ :=
  vatQuarterlyQ i + inpsTotalQ i / 4

def calendarOf (i : SRLTaxCalculationInput) : List CalendarEvent :=
  createFiscalCalendar2025 (iresFirstAccontoQ i) (iresSecondAccontoQ i)
    (irapFirstAccontoQ i) (irapSecondAccontoQ i) (vatDeadlinesOf i) (inpsTotalQ i)
    (resolvedFiscalYear i) (isNewBusiness2025B i)

/-- The sorted event stream the schedule of `calculateSRLTaxes` replays. -/
def scheduleEventsOf (i : SRLTaxCalculationInput) (today : ℤ) : List PreEvent :=
  sortByKey (fun e => dateKey e.date)
    (monthlyEvents (monthlyAccrualQ i) (resolvedFiscalYear i) today ++
      ((calendarOf i).filter (fun e => decide (today ≤ dateKey e.date))).map calendarToPre)

/-- `accontiDetails` of the result. -/
structure AccontiDetails where
  isNewBusiness : Bool
  accontiBasedOn2024 : Bool
  accontiRate : ℚ
deriving DecidableEq

/-- The output record (`SRLTaxCalculationResult`). -/
structure SRLTaxCalculationResult where
  fiscalYear : ℤ
  grossProfit : ℚ
  taxableIncome : ℚ
  taxableIncomeAfterLosses : ℚ
  iresAmount : ℚ
  iresRate : ℚ
  isIresPremialeApplicable : Bool
  iresPremialeDetails : Option PremialeDetails
  irapBase : ℚ
  irapDeductions : ℚ
  irapTaxableIncome : ℚ
  irapAmount : ℚ
  irapRate : ℚ
  lossesUsed : ℚ
  remainingLosses : ℚ
  superDeductionAmount : ℚ
  rolDetails : RolDetails
  vatOnSales : ℚ
  vatOnPurchases : ℚ
  vatAmount : ℚ
  vatQuarterly : ℚ
  vatDeadlines : List VatDeadline
  inpsAdmin : ℚ
  inpsEmployees : ℚ
  inpsTotalAmount : ℚ
  totalTaxes : ℚ
  totalDue : ℚ
  iresFirstAcconto : ℚ
  iresSecondAcconto : ℚ
  irapFirstAcconto : ℚ
  irapSecondAcconto : ℚ
  accontiDetails : AccontiDetails
  monthlyAccrual : ℚ
  quarterlyPayments : ℚ
  calendar2025 : List CalendarEvent
  paymentSchedule : List ScheduleRow
deriving DecidableEq

/-- `rolDetails` of the result: each field rounded to two decimals. -/
def roundRol (r : RolDetails) : RolDetails :=
  ⟨round2 r.rolFiscale, round2 r.interessiAttiviTotali, round2 r.interessiPassiviDeducibili,
   round2 r.interessiPassiviIndeducibili, round2 r.limitROL⟩

/-- `calculateSRLTaxes`.  `today` is the wall-clock instant the source reads
via `new Date()` inside `createPaymentSchedule`; the rest of the computation
never reads it. -/
def calculateSRLTaxes (input : SRLTaxCalculationInput) (today : ℤ) : SRLTaxCalculationResult :=
  { fiscalYear := resolvedFiscalYear input,
    grossProfit := round2 (grossProfitQ input),
    taxableIncome := round2 (taxableIncomeQ input),
    taxableIncomeAfterLosses := round2 (taxableIncomeAfterLossesQ input),
    iresAmount := round2 (iresAmountQ input),
    iresRate := iresRateQ input,
    isIresPremialeApplicable := (checkIresPremialeConditions input).isApplicable,
    iresPremialeDetails :=
      if (checkIresPremialeConditions input).isApplicable
      then (checkIresPremialeConditions input).details else none,
    irapBase := round2 (irapBaseQ input),
    irapDeductions := round2 (calculateIrapDeductions input),
    irapTaxableIncome := round2 (irapTaxableIncomeQ input),
    irapAmount := round2 (irapAmountQ input),
    irapRate := irapRateQ input,
    lossesUsed := round2 (lossesUsageOf input).lossesUsed,
    remainingLosses := round2 (lossesUsageOf input).remainingLosses,
    superDeductionAmount := round2 (calculateSuperDeduction input),
    rolDetails := roundRol (calculateROLAndInterests input),
    vatOnSales := round2 (vatOnSalesQ input),
    vatOnPurchases := round2 (vatOnPurchasesQ input),
    vatAmount := round2 (vatAmountQ input),
    vatQuarterly := round2 (vatQuarterlyQ input),
    vatDeadlines := (vatDeadlinesOf input).map (fun d => ⟨d.date, round2 d.amount, d.type⟩),
    inpsAdmin := round2 (inpsAdminQ input),
    inpsEmployees := round2 (inpsEmployeesQ input),
    inpsTotalAmount := round2 (inpsTotalQ input),
    totalTaxes := round2 (totalTaxesQ input),
    totalDue := round2 (totalDueQ input),
    iresFirstAcconto := round2 (iresFirstAccontoQ input),
    iresSecondAcconto := round2 (iresSecondAccontoQ input),
    irapFirstAcconto := round2 (irapFirstAccontoQ input),
    irapSecondAcconto := round2 (irapSecondAccontoQ input),
    accontiDetails :=
      ⟨isNewBusiness2025B input, usePreviousYearData input && !isNewBusiness2025B input, 0.40⟩,
    monthlyAccrual := round2 (monthlyAccrualQ input),
    quarterlyPayments := round2 (quarterlyPaymentsQ input),
    calendar2025 := calendarOf input,
    paymentSchedule :=
      createPaymentSchedule (calendarOf input) input.currentBalance (monthlyAccrualQ input)
        (resolvedFiscalYear input) today }

/-- An input with every financial field zero and every optional field
absent; concrete test inputs below modify it. -/
def zeroInput : SRLTaxCalculationInput :=
  { revenue := 0, costs := 0, employees := 0, employeeCosts := 0, adminSalary := 0,
    region := "", businessSector := "", vatRegime := "", hasVatDebt := false, vatDebt := 0,
    currentBalance := 0, startDate := none, startYear := none, vatOnSales := none,
    vatOnPurchases := none, fiscalYear := none, revenue2024 := none, costs2024 := none,
    utile2024 := none, utile2023 := none, investimentiPrevisti := none,
    mediaULA2022_2024 := none, dipendentiTempo2024 := none, nuoveAssunzioni2025 := none,
    hasUsedCIG := none, interessiAttivi := none, interessiPassivi := none, rolFiscale := none,
    perditePregresseOrdinarie := none, perditePrimi3Esercizi := none,
    costoNuoveAssunzioni := none, incrementoCostoPersonale := none }

end SRLTax

namespace SRLTax

/-! ### Helper lemmas -/

lemma round2_zero : round2 0 = 0 := by with_unfolding_all rfl

lemma round2_nonneg {q : ℚ} (h : 0 ≤ q) : 0 ≤ round2 q := by
  unfold round2 jsRound
  have h1 : (0 : ℤ) ≤ ⌊q * 100 + 1/2⌋ := Int.floor_nonneg.mpr (by linarith)
  have h2 : (0 : ℚ) ≤ ((⌊q * 100 + 1/2⌋ : ℤ) : ℚ) := by exact_mod_cast h1
  linarith

lemma round2_mono {a b : ℚ} (h : a ≤ b) : round2 a ≤ round2 b := by
  unfold round2 jsRound
  have h1 : ⌊a * 100 + 1/2⌋ ≤ ⌊b * 100 + 1/2⌋ := Int.floor_le_floor (by linarith)
  have h2 : ((⌊a * 100 + 1/2⌋ : ℤ) : ℚ) ≤ ((⌊b * 100 + 1/2⌋ : ℤ) : ℚ) := by exact_mod_cast h1
  linarith

lemma round2_err (q : ℚ) : |round2 q - q| ≤ 1/200 := by
  unfold round2 jsRound
  have h1 : ((⌊q * 100 + 1/2⌋ : ℤ) : ℚ) ≤ q * 100 + 1/2 := Int.floor_le _
  have h2 : q * 100 + 1/2 < ((⌊q * 100 + 1/2⌋ : ℤ) : ℚ) + 1 := Int.lt_floor_add_one _
  rw [abs_le]
  constructor <;> linarith

lemma mem_insertByKey {k : α → ℤ} {x a : α} {l : List α} :
    a ∈ insertByKey k x l ↔ a = x ∨ a ∈ l := by
  induction l with
  | nil => simp [insertByKey]
  | cons y ys ih =>
    unfold insertByKey
    split
    · simp [List.mem_cons]
    · simp only [List.mem_cons, ih]
      tauto

lemma mem_sortByKey {k : α → ℤ} {a : α} {l : List α} : a ∈ sortByKey k l ↔ a ∈ l := by
  induction l with
  | nil => simp [sortByKey]
  | cons x xs ih => simp [sortByKey, mem_insertByKey, ih]

lemma replay_length (b : ℚ) (es : List PreEvent) : (replay b es).length = es.length := by
  induction es generalizing b with
  | nil => rfl
  | cons e es ih => simp [replay, ih]

/-- Default row and event used with `List.getD`. -/
def dummyEvent : PreEvent := ⟨⟨1, 1, 2025⟩, 0, "", Category.ACCUMULO, "", true⟩

def dummyRow : ScheduleRow := mkRow 0 dummyEvent

lemma replay_getD (es : List PreEvent) (b : ℚ) (k : ℕ) (hk : k < es.length) :
    (replay b es).getD k dummyRow = mkRow (rawBal b es k) (es.getD k dummyEvent) := by
  induction es generalizing b k with
  | nil => simp at hk
  | cons e es ih =>
    cases k with
    | zero => rfl
    | succ k =>
      have hk' : k < es.length := by simpa using hk
      simpa [replay, rawBal] using ih (stepBalance b e) k hk'

lemma stepBalance_nonneg {b : ℚ} {e : PreEvent} (hb : 0 ≤ b)
    (ha : e.isIncome = true → 0 ≤ e.amount) : 0 ≤ stepBalance b e := by
  unfold stepBalance
  split
  · have := ha ‹_›
    linarith
  · split
    · exact le_refl 0
    · linarith [not_lt.mp ‹¬ (b - e.amount < 0)›]

lemma replay_deficit : ∀ (es : List PreEvent) (b : ℚ), 0 ≤ b →
    (∀ e ∈ es, e.isIncome = true → 0 ≤ e.amount) →
    ∀ r ∈ replay b es, r.deficit = 0 := by
  intro es
  induction es with
  | nil =>
    intro b _ _ r hr
    simp [replay] at hr
  | cons e es ih =>
    intro b hb hinc r hr
    have hstep : 0 ≤ stepBalance b e := stepBalance_nonneg hb (hinc e (List.mem_cons_self e es))
    rcases List.mem_cons.mp hr with rfl | hr
    · show (mkRow b e).deficit = 0
      unfold mkRow
      simp only
      rw [if_neg (not_lt.mpr hstep)]
      exact round2_zero
    · exact ih (stepBalance b e) hstep (fun x hx => hinc x (List.mem_cons_of_mem _ hx)) r hr

end SRLTax

namespace SRLTax

/-! ### Nonnegativity of the computed amounts -/

lemma taxableIncomeAfterLossesQ_nonneg (i : SRLTaxCalculationInput) :
    0 ≤ taxableIncomeAfterLossesQ i := le_max_left 0 _

lemma iresRateQ_nonneg (i : SRLTaxCalculationInput) : 0 ≤ iresRateQ i := by
  unfold iresRateQ
  split <;> norm_num

lemma iresAmountQ_nonneg (i : SRLTaxCalculationInput) : 0 ≤ iresAmountQ i :=
  mul_nonneg (taxableIncomeAfterLossesQ_nonneg i) (iresRateQ_nonneg i)

lemma IRAP_RATES_pos : ∀ (s : String) (v : ℚ), IRAP_RATES s = some v → 0 < v := by
  intro s v h
  unfold IRAP_RATES at h
  rcases hf : IRAP_RATES_table.find? (fun p => p.1 == s) with _ | p
  · rw [hf] at h
    exact absurd h (by simp)
  · rw [hf] at h
    have hmem : p ∈ IRAP_RATES_table := List.mem_of_find?_eq_some hf
    have hall : IRAP_RATES_table.all (fun q => decide (0 < q.2)) = true := by
      with_unfolding_all rfl
    have hp : 0 < p.2 := of_decide_eq_true (List.all_eq_true.mp hall p hmem)
    simp only [Option.map_some'] at h
    injection h with h2
    rw [← h2]
    exact hp

lemma irapRateQ_pos (i : SRLTaxCalculationInput) : 0 < irapRateQ i := by
  unfold irapRateQ
  have h : 0 < jsOrQ (IRAP_RATES i.region) 3.9 := by
    cases hr : IRAP_RATES i.region with
    | none => simp only [jsOrQ]; norm_num
    | some v =>
      have hv := IRAP_RATES_pos i.region v hr
      simp only [jsOrQ]
      split
      · norm_num
      · exact hv
  exact div_pos h (by norm_num)

lemma irapAmountQ_nonneg (i : SRLTaxCalculationInput) : 0 ≤ irapAmountQ i :=
  mul_nonneg (le_max_left 0 _) (le_of_lt (irapRateQ_pos i))

lemma vatAmountQ_nonneg (i : SRLTaxCalculationInput) : 0 ≤ vatAmountQ i := by
  unfold vatAmountQ
  have h1 : (0 : ℚ) ≤ max 0 (vatOnSalesQ i - vatOnPurchasesQ i) := le_max_left 0 _
  have h2 : (0 : ℚ) ≤ if i.hasVatDebt && decide (0 < i.vatDebt) then i.vatDebt else 0 := by
    split
    · have hd : (i.hasVatDebt && decide (0 < i.vatDebt)) = true := ‹_›
      rcases Bool.and_eq_true_iff.mp hd with ⟨_, hlt⟩
      exact le_of_lt (of_decide_eq_true hlt)
    · exact le_refl 0
  linarith

lemma inpsAdminQ_nonneg (i : SRLTaxCalculationInput) : 0 ≤ inpsAdminQ i := by
  unfold inpsAdminQ
  split
  · have : (18324 : ℚ) ≤ max 18324 (min i.adminSalary 105014) := le_max_left _ _
    nlinarith
  · exact le_refl 0

lemma inpsEmployeesQ_nonneg (i : SRLTaxCalculationInput) : 0 ≤ inpsEmployeesQ i := by
  unfold inpsEmployeesQ
  split
  · have h := ‹0 < i.employees ∧ 0 < i.employeeCosts›
    nlinarith [h.2]
  · exact le_refl 0

lemma inpsTotalQ_nonneg (i : SRLTaxCalculationInput) : 0 ≤ inpsTotalQ i :=
  add_nonneg (inpsAdminQ_nonneg i) (inpsEmployeesQ_nonneg i)

lemma totalTaxesQ_nonneg (i : SRLTaxCalculationInput) : 0 ≤ totalTaxesQ i :=
  add_nonneg (iresAmountQ_nonneg i) (irapAmountQ_nonneg i)

lemma totalDueQ_nonneg (i : SRLTaxCalculationInput) : 0 ≤ totalDueQ i :=
  add_nonneg (add_nonneg (totalTaxesQ_nonneg i) (inpsTotalQ_nonneg i)) (vatAmountQ_nonneg i)

lemma monthlyAccrualQ_nonneg (i : SRLTaxCalculationInput) : 0 ≤ monthlyAccrualQ i :=
  div_nonneg (totalDueQ_nonneg i) (by norm_num)

/-- Every income event of the replayed stream is a monthly deposit of the
(nonnegative) recommended accrual. -/
lemma scheduleEvents_income_nonneg (i : SRLTaxCalculationInput) (t : ℤ) :
    ∀ e ∈ scheduleEventsOf i t, e.isIncome = true → 0 ≤ e.amount := by
  intro e he hinc
  unfold scheduleEventsOf at he
  rw [mem_sortByKey] at he
  rcases List.mem_append.mp he with h | h
  · unfold monthlyEvents at h
    rcases List.mem_filterMap.mp h with ⟨m, _, hm⟩
    simp only at hm
    split at hm
    · rw [Option.some.injEq] at hm
      rw [← hm]
      exact monthlyAccrualQ_nonneg i
    · exact absurd hm (by simp)
  · rcases List.mem_map.mp h with ⟨c, _, rfl⟩
    exact absurd hinc (by simp [calendarToPre])

end SRLTax

namespace SRLTax

/-! ### Claim C1 -/

/-- The result with its payment schedule blanked: every other field. -/
def stripSchedule (r : SRLTaxCalculationResult) : SRLTaxCalculationResult :=
  { r with paymentSchedule := [] }

/-- Claim C1 counterexample: `calculateSRLTaxes` reads the wall clock
(`new Date()`) inside `createPaymentSchedule`; on the all-zero input, an
invocation whose processing instant precedes 1 Jan 2025 yields twelve
schedule rows while one past all event dates yields none, so two
invocations on the same input record differ. -/
theorem calculateSRLTaxes_today_dependent :
    (calculateSRLTaxes zeroInput 0).paymentSchedule.length = 12 ∧
    (calculateSRLTaxes zeroInput 30000000).paymentSchedule.length = 0 ∧
    calculateSRLTaxes zeroInput 0 ≠ calculateSRLTaxes zeroInput 30000000 := by
  refine ⟨by with_unfolding_all rfl, by with_unfolding_all rfl, fun h => ?_⟩
  have h1 := congrArg (fun r => r.paymentSchedule.length) h
  simp only at h1
  have h2 : (calculateSRLTaxes zeroInput 0).paymentSchedule.length = 12 := by
    with_unfolding_all rfl
  have h3 : (calculateSRLTaxes zeroInput 30000000).paymentSchedule.length = 0 := by
    with_unfolding_all rfl
  rw [h2, h3] at h1
  exact absurd h1 (by decide)

/-- Claim C1 (amended): `calculateSRLTaxes` is a deterministic pure function
of the input record and the processing instant; every output field except
`paymentSchedule` (in particular `calendar2025`) is independent of the
wall-clock date. -/
theorem calculateSRLTaxes_eq_except_schedule :
    ∀ (i : SRLTaxCalculationInput) (t₁ t₂ : ℤ),
      stripSchedule (calculateSRLTaxes i t₁) = stripSchedule (calculateSRLTaxes i t₂) :=
  fun _ _ _ => rfl

/-! ### Claim C2 -/

lemma interessiPassiviIndeducibili_nonneg (i : SRLTaxCalculationInput) :
    0 ≤ (calculateROLAndInterests i).interessiPassiviIndeducibili := by
  show 0 ≤ jsOrQ i.interessiPassivi 0 -
      (min (jsOrQ i.interessiPassivi 0) (jsOrQ i.interessiAttivi 0) +
        min (jsOrQ i.interessiPassivi 0 -
              min (jsOrQ i.interessiPassivi 0) (jsOrQ i.interessiAttivi 0))
          (jsOrQ i.rolFiscale (i.revenue * 0.15) * 0.3))
  have h1 := min_le_left
    (jsOrQ i.interessiPassivi 0 - min (jsOrQ i.interessiPassivi 0) (jsOrQ i.interessiAttivi 0))
    (jsOrQ i.rolFiscale (i.revenue * 0.15) * 0.3)
  linarith

lemma calculateSuperDeduction_nonneg (i : SRLTaxCalculationInput)
    (h3 : 0 ≤ jsOrQ i.costoNuoveAssunzioni 0) (h4 : 0 ≤ jsOrQ i.incrementoCostoPersonale 0) :
    0 ≤ calculateSuperDeduction i := by
  show 0 ≤ if jsOrQ i.costoNuoveAssunzioni 0 = 0 then 0
      else min (jsOrQ i.costoNuoveAssunzioni 0) (jsOrQ i.incrementoCostoPersonale 0) * 0.2
  split
  · exact le_refl 0
  · exact mul_nonneg (le_min h3 h4) (by norm_num)

lemma lossesUsed_nonneg (i : SRLTaxCalculationInput)
    (h5 : 0 ≤ jsOrQ i.perditePrimi3Esercizi 0) (h6 : 0 ≤ jsOrQ i.perditePregresseOrdinarie 0) :
    0 ≤ (lossesUsageOf i).lossesUsed := by
  unfold lossesUsageOf calculateLossesUsage
  split
  · exact le_refl 0
  · show 0 ≤ perditePrimi3UsedQ (taxableIncomeQ i) i + perditeOrdinarieUsedQ (taxableIncomeQ i) i
    have hpos : 0 < taxableIncomeQ i := lt_of_not_le ‹¬ taxableIncomeQ i ≤ 0›
    have ha : 0 ≤ perditePrimi3UsedQ (taxableIncomeQ i) i := le_min h5 (le_of_lt hpos)
    have hb : 0 ≤ perditeOrdinarieUsedQ (taxableIncomeQ i) i := by
      refine le_min h6 ?_
      show (0 : ℚ) ≤ (taxableIncomeQ i - perditePrimi3UsedQ (taxableIncomeQ i) i) * 0.8
      have := min_le_right (jsOrQ i.perditePrimi3Esercizi 0) (taxableIncomeQ i)
      have h0 : (0 : ℚ) ≤ taxableIncomeQ i - perditePrimi3UsedQ (taxableIncomeQ i) i := by
        show (0 : ℚ) ≤ taxableIncomeQ i - min (jsOrQ i.perditePrimi3Esercizi 0) (taxableIncomeQ i)
        linarith
      nlinarith
    exact add_nonneg ha hb

/-- Claim C2 counterexample: on the input with `costs = 100` and everything
else zero, `grossProfit = -100` but the reported `taxableIncome` is floored
at `0`, so `taxableIncome ≤ grossProfit` fails. -/
def negProfitInput : SRLTaxCalculationInput := { zeroInput with costs := 100 }

theorem taxable_chain_cex :
    ¬ ((calculateSRLTaxes negProfitInput 0).taxableIncome
        ≤ (calculateSRLTaxes negProfitInput 0).grossProfit) := by
  with_unfolding_all decide

/-- Claim C2 (amended): when the gross profit, the administrator salary,
the super-deduction inputs and the carried-loss inputs are nonnegative,
`taxableIncomeAfterLosses ≤ taxableIncome ≤ grossProfit` holds on the
reported (rounded) fields.  Without these sign conditions the chain fails:
`taxableIncome` is floored at zero and can exceed a negative `grossProfit`
(see the counterexample), and negative loss or super-deduction inputs make
the "deductions" increase the base.  The interest step (step 2) is not
individually floored at zero, but the following super-deduction step
re-applies the floor, so only the listed sign conditions are needed. -/
theorem taxable_chain_of_nonneg (i : SRLTaxCalculationInput) (t : ℤ)
    (h1 : 0 ≤ grossProfitQ i) (h2 : 0 ≤ i.adminSalary)
    (h3 : 0 ≤ jsOrQ i.costoNuoveAssunzioni 0) (h4 : 0 ≤ jsOrQ i.incrementoCostoPersonale 0)
    (h5 : 0 ≤ jsOrQ i.perditePrimi3Esercizi 0) (h6 : 0 ≤ jsOrQ i.perditePregresseOrdinarie 0) :
    (calculateSRLTaxes i t).taxableIncomeAfterLosses ≤ (calculateSRLTaxes i t).taxableIncome ∧
    (calculateSRLTaxes i t).taxableIncome ≤ (calculateSRLTaxes i t).grossProfit := by
  have hind := interessiPassiviIndeducibili_nonneg i
  have hsd := calculateSuperDeduction_nonneg i h3 h4
  have hused := lossesUsed_nonneg i h5 h6
  have hti_le : taxableIncomeQ i ≤ grossProfitQ i := by
    have hstep1 : taxableIncomeStep1Q i ≤ grossProfitQ i :=
      max_le h1 (by unfold grossProfitQ; linarith)
    have hstep2 : taxableIncomeStep2Q i ≤ taxableIncomeStep1Q i := by
      unfold taxableIncomeStep2Q
      linarith
    exact max_le h1 (by linarith)
  have htial_le : taxableIncomeAfterLossesQ i ≤ taxableIncomeQ i :=
    max_le (le_max_left 0 _) (by linarith)
  exact ⟨round2_mono htial_le, round2_mono hti_le⟩

/-- Concrete instance for the C2 witness. -/
def plainProfitInput : SRLTaxCalculationInput := { zeroInput with revenue := 1000 }

/-- Claim C2 witness: the amended chain at a concrete profitable input. -/
theorem taxable_chain_witness :
    (0 : ℚ) ≤ grossProfitQ plainProfitInput ∧
    ((calculateSRLTaxes plainProfitInput 0).taxableIncomeAfterLosses
        ≤ (calculateSRLTaxes plainProfitInput 0).taxableIncome ∧
     (calculateSRLTaxes plainProfitInput 0).taxableIncome
        ≤ (calculateSRLTaxes plainProfitInput 0).grossProfit) :=
  ⟨by with_unfolding_all decide,
   taxable_chain_of_nonneg plainProfitInput 0 (by with_unfolding_all decide)
     (le_refl 0) (le_refl 0) (le_refl 0) (le_refl 0) (le_refl 0)⟩

/-! ### Claim C3 -/

/-- Claim C3 counterexample: with a negative starting balance, the income
(monthly-deposit) rows do not clamp the balance, so their recorded deficit
is positive. -/
def negBalanceInput : SRLTaxCalculationInput := { zeroInput with currentBalance := -1000 }

theorem deficit_nonzero_cex :
    ¬ (∀ r ∈ (calculateSRLTaxes negBalanceInput 0).paymentSchedule, r.deficit = 0) := by
  with_unfolding_all decide

/-- Claim C3 (amended): for every input whose starting balance is
nonnegative, every row of the payment schedule has `deficit = 0`: the
running balance stays nonnegative (deposits add the nonnegative monthly
accrual, obligations clamp at zero), so the deficit check never fires.
With a negative starting balance an income row records a positive deficit
(see the counterexample), because only obligation rows clamp the balance. -/
theorem deficit_zero_of_nonneg_balance (i : SRLTaxCalculationInput) (t : ℤ)
    (h : 0 ≤ i.currentBalance) :
    ∀ r ∈ (calculateSRLTaxes i t).paymentSchedule, r.deficit = 0 := by
  have hs : (calculateSRLTaxes i t).paymentSchedule
      = replay i.currentBalance (scheduleEventsOf i t) := rfl
  rw [hs]
  exact replay_deficit (scheduleEventsOf i t) i.currentBalance h
    (scheduleEvents_income_nonneg i t)

/-- Claim C3 witness: the amended statement at the all-zero input. -/
theorem deficit_zero_witness :
    (0 : ℚ) ≤ zeroInput.currentBalance ∧
    ∀ r ∈ (calculateSRLTaxes zeroInput 0).paymentSchedule, r.deficit = 0 :=
  ⟨le_refl 0, deficit_zero_of_nonneg_balance zeroInput 0 (le_refl 0)⟩

end SRLTax

namespace SRLTax

/-! ### Claim C4 -/

/-- Claim C4 counterexample: the row fields `previousBalance` and
`newBalance` are rounded but `amount` is recorded unrounded, so the
recurrence fails on the recorded values: with starting balance `0.004` and
monthly accrual `0.004`, the first income row records
`previousBalance = 0.00`, `newBalance = 0.01`, `amount = 0.004`, and
`0.01 ≠ 0.00 + 0.004`. -/
def fractionalInput : SRLTaxCalculationInput :=
  { zeroInput with currentBalance := 1/250, hasVatDebt := true, vatDebt := 6/125 }

theorem schedule_row_rounding_cex :
    ¬ (∀ r ∈ (calculateSRLTaxes fractionalInput 0).paymentSchedule,
        r.isIncome = true → r.newBalance = r.previousBalance + r.amount) := by
  with_unfolding_all decide

/-- Claim C4 (amended): the row recurrence holds with respect to the exact
(pre-rounding) running balance `rawBal`: each row records
`previousBalance = round2 b`; an income row records
`newBalance = round2 (b + amount)` and `requiredPayment = round2 amount`;
an obligation row records `newBalance = round2 (max 0 (b - amount))` and
`requiredPayment = round2 (max 0 (amount - b))` — i.e. the absolute
shortfall exactly when `b - amount < 0`, and `0` otherwise.  On the
recorded (independently rounded) values themselves the equations fail,
because `amount` is not rounded and rounding is not additive (see the
counterexample). -/
theorem schedule_row_recurrence (i : SRLTaxCalculationInput) (t : ℤ) (k : ℕ)
    (hk : k < (calculateSRLTaxes i t).paymentSchedule.length) :
    ((calculateSRLTaxes i t).paymentSchedule.getD k dummyRow).previousBalance
        = round2 (rawBal i.currentBalance (scheduleEventsOf i t) k) ∧
    (((calculateSRLTaxes i t).paymentSchedule.getD k dummyRow).isIncome = true →
      ((calculateSRLTaxes i t).paymentSchedule.getD k dummyRow).newBalance
          = round2 (rawBal i.currentBalance (scheduleEventsOf i t) k
              + ((calculateSRLTaxes i t).paymentSchedule.getD k dummyRow).amount) ∧
      ((calculateSRLTaxes i t).paymentSchedule.getD k dummyRow).requiredPayment
          = round2 ((calculateSRLTaxes i t).paymentSchedule.getD k dummyRow).amount) ∧
    (((calculateSRLTaxes i t).paymentSchedule.getD k dummyRow).isIncome = false →
      ((calculateSRLTaxes i t).paymentSchedule.getD k dummyRow).newBalance
          = round2 (max 0 (rawBal i.currentBalance (scheduleEventsOf i t) k
              - ((calculateSRLTaxes i t).paymentSchedule.getD k dummyRow).amount)) ∧
      ((calculateSRLTaxes i t).paymentSchedule.getD k dummyRow).requiredPayment
          = round2 (max 0 (((calculateSRLTaxes i t).paymentSchedule.getD k dummyRow).amount
              - rawBal i.currentBalance (scheduleEventsOf i t) k))) := by
  have hs : (calculateSRLTaxes i t).paymentSchedule
      = replay i.currentBalance (scheduleEventsOf i t) := rfl
  rw [hs] at hk ⊢
  have hlen : k < (scheduleEventsOf i t).length := by
    rwa [replay_length] at hk
  rw [replay_getD _ _ _ hlen]
  set b := rawBal i.currentBalance (scheduleEventsOf i t) k with hbdef
  set e := (scheduleEventsOf i t).getD k dummyEvent with hedef
  simp only [mkRow, stepBalance, rowRequired]
  refine ⟨by trivial, fun hinc => ?_, fun hninc => ?_⟩
  · rw [if_pos hinc, if_pos hinc]
    exact ⟨rfl, rfl⟩
  · have hninc' : ¬ (e.isIncome = true) := by
      intro hc
      rw [hninc] at hc
      exact Bool.false_ne_true hc
    rw [if_neg hninc', if_neg hninc']
    by_cases hlt : b - e.amount < 0
    · rw [if_pos hlt, if_pos hlt, max_eq_left (le_of_lt hlt),
          max_eq_right (by linarith : (0:ℚ) ≤ e.amount - b)]
      refine ⟨rfl, ?_⟩
      congr 1
      ring
    · rw [if_neg hlt, if_neg hlt,
          max_eq_right (by linarith [not_lt.mp hlt] : (0:ℚ) ≤ b - e.amount),
          max_eq_left (by linarith [not_lt.mp hlt] : e.amount - b ≤ 0)]
      exact ⟨rfl, rfl⟩

/-- Claim C4 witness: the amended recurrence at the concrete fractional
input, row 0. -/
theorem schedule_row_recurrence_witness :
    0 < (calculateSRLTaxes fractionalInput 0).paymentSchedule.length ∧
    (((calculateSRLTaxes fractionalInput 0).paymentSchedule.getD 0 dummyRow).previousBalance
        = round2 (rawBal fractionalInput.currentBalance (scheduleEventsOf fractionalInput 0) 0) ∧
    (((calculateSRLTaxes fractionalInput 0).paymentSchedule.getD 0 dummyRow).isIncome = true →
      ((calculateSRLTaxes fractionalInput 0).paymentSchedule.getD 0 dummyRow).newBalance
          = round2 (rawBal fractionalInput.currentBalance (scheduleEventsOf fractionalInput 0) 0
              + ((calculateSRLTaxes fractionalInput 0).paymentSchedule.getD 0 dummyRow).amount) ∧
      ((calculateSRLTaxes fractionalInput 0).paymentSchedule.getD 0 dummyRow).requiredPayment
          = round2 (((calculateSRLTaxes fractionalInput 0).paymentSchedule.getD 0 dummyRow).amount)) ∧
    (((calculateSRLTaxes fractionalInput 0).paymentSchedule.getD 0 dummyRow).isIncome = false →
      ((calculateSRLTaxes fractionalInput 0).paymentSchedule.getD 0 dummyRow).newBalance
          = round2 (max 0 (rawBal fractionalInput.currentBalance (scheduleEventsOf fractionalInput 0) 0
              - ((calculateSRLTaxes fractionalInput 0).paymentSchedule.getD 0 dummyRow).amount)) ∧
      ((calculateSRLTaxes fractionalInput 0).paymentSchedule.getD 0 dummyRow).requiredPayment
          = round2 (max 0 (((calculateSRLTaxes fractionalInput 0).paymentSchedule.getD 0 dummyRow).amount
              - rawBal fractionalInput.currentBalance (scheduleEventsOf fractionalInput 0) 0)))) :=
  ⟨by with_unfolding_all decide,
   schedule_row_recurrence fractionalInput 0 0 (by with_unfolding_all decide)⟩

end SRLTax

namespace SRLTax

/-! ### Claim C5 -/

/-- Every event of a calendar built with the new-business flag set is a VAT
or INPS event. -/
lemma calendar_category_of_new (a1 a2 a3 a4 : ℚ) (vds : List VatDeadline) (n : ℚ) (fy : ℤ) :
    ∀ e ∈ createFiscalCalendar2025 a1 a2 a3 a4 vds n fy true,
      e.category = Category.IVA ∨ e.category = Category.INPS := by
  intro e he
  have hdef : createFiscalCalendar2025 a1 a2 a3 a4 vds n fy true
      = sortByKey (fun e => dateKey e.date)
          (vds.map (fun d => ⟨d.date, d.amount, d.type, Category.IVA, d.type⟩) ++ [] ++
            (if 0 < n / 4 then
              [⟨⟨16, 5, fy⟩, n / 4, "INPS I Trim " ++ toString fy,
                Category.INPS, "Contributi INPS anno " ++ toString fy ++ " - I trimestre"⟩,
               ⟨⟨20, 8, fy⟩, n / 4, "INPS II Trim " ++ toString fy,
                Category.INPS, "Contributi INPS anno " ++ toString fy ++ " - II trimestre"⟩,
               ⟨⟨16, 11, fy⟩, n / 4, "INPS III Trim " ++ toString fy,
                Category.INPS, "Contributi INPS anno " ++ toString fy ++ " - III trimestre"⟩,
               ⟨⟨16, 2, fy + 1⟩, n / 4, "INPS IV Trim " ++ toString fy,
                Category.INPS, "Contributi INPS anno " ++ toString fy ++ " - IV trimestre"⟩]
            else [])) := rfl
  rw [hdef, mem_sortByKey] at he
  rcases List.mem_append.mp he with h | h
  · rcases List.mem_append.mp h with h' | h'
    · rcases List.mem_map.mp h' with ⟨d, _, rfl⟩
      exact Or.inl rfl
    · exact absurd h' (List.not_mem_nil e)
  · split at h
    · simp only [List.mem_cons, List.not_mem_nil, or_false] at h
      rcases h with rfl | rfl | rfl | rfl
      · exact Or.inr rfl
      · exact Or.inr rfl
      · exact Or.inr rfl
      · exact Or.inr rfl
    · exact absurd h (List.not_mem_nil e)

/-- Claim C5 counterexample: the code tests `startYear >= 2025` against the
literal 2025, not against the fiscal year.  With `fiscalYear = 2024` and
`startYear = 2024` — a business started in the fiscal year itself — the
installments are computed anyway (`iresFirstAcconto = 9600` from
`utile2024 = 100000`), refuting the claim as stated. -/
def startEqFiscalInput : SRLTaxCalculationInput :=
  { zeroInput with
    fiscalYear := some 2024, startYear := some 2024, utile2024 := some 100000 }

theorem acconti_despite_startYear_eq_fiscalYear :
    startEqFiscalInput.startYear = startEqFiscalInput.fiscalYear ∧
    (calculateSRLTaxes startEqFiscalInput 0).iresFirstAcconto = 9600 ∧
    (calculateSRLTaxes startEqFiscalInput 0).accontiDetails.isNewBusiness = false := by
  refine ⟨rfl, ?_, ?_⟩ <;> with_unfolding_all rfl

/-- Claim C5 (amended): when the resolved start year is a number `≥ 2025`
(the code's actual test, rather than "equals the fiscal year"), all four
installments are 0, `accontiDetails.isNewBusiness` is true, and the
calendar contains no IRES- or IRAP-category events. -/
theorem no_acconti_of_startYear_ge_2025 (i : SRLTaxCalculationInput) (t : ℤ) (y : ℤ)
    (hy : resolvedStartYear i = YearV.num y) (h25 : 2025 ≤ y) :
    ((calculateSRLTaxes i t).iresFirstAcconto = 0 ∧
     (calculateSRLTaxes i t).iresSecondAcconto = 0 ∧
     (calculateSRLTaxes i t).irapFirstAcconto = 0 ∧
     (calculateSRLTaxes i t).irapSecondAcconto = 0) ∧
    (calculateSRLTaxes i t).accontiDetails.isNewBusiness = true ∧
    ∀ e ∈ (calculateSRLTaxes i t).calendar2025,
      e.category ≠ Category.IRES ∧ e.category ≠ Category.IRAP := by
  have hnew : isNewBusiness2025B i = true := by
    unfold isNewBusiness2025B
    rw [hy]
    exact decide_eq_true h25
  have hguard : accontiGuard i = false := by
    unfold accontiGuard
    rw [hnew]
    rfl
  have ha1 : iresFirstAccontoQ i = 0 := by simp [iresFirstAccontoQ, hguard]
  have ha2 : iresSecondAccontoQ i = 0 := by simp [iresSecondAccontoQ, hguard]
  have ha3 : irapFirstAccontoQ i = 0 := by simp [irapFirstAccontoQ, hguard]
  have ha4 : irapSecondAccontoQ i = 0 := by simp [irapSecondAccontoQ, hguard]
  refine ⟨⟨?_, ?_, ?_, ?_⟩, hnew, ?_⟩
  · show round2 (iresFirstAccontoQ i) = 0
    rw [ha1]
    exact round2_zero
  · show round2 (iresSecondAccontoQ i) = 0
    rw [ha2]
    exact round2_zero
  · show round2 (irapFirstAccontoQ i) = 0
    rw [ha3]
    exact round2_zero
  · show round2 (irapSecondAccontoQ i) = 0
    rw [ha4]
    exact round2_zero
  · intro e he
    have hc : (calculateSRLTaxes i t).calendar2025 = calendarOf i := rfl
    rw [hc] at he
    unfold calendarOf at he
    rw [hnew] at he
    have hcat := calendar_category_of_new (iresFirstAccontoQ i) (iresSecondAccontoQ i)
      (irapFirstAccontoQ i) (irapSecondAccontoQ i) (vatDeadlinesOf i) (inpsTotalQ i)
      (resolvedFiscalYear i) e he
    rcases hcat with h | h <;> rw [h] <;> exact ⟨by decide, by decide⟩

/-- Concrete instance for the C5 witness: an explicit start year 2025. -/
def start2025Input : SRLTaxCalculationInput := { zeroInput with startYear := some 2025 }

/-- Claim C5 witness: the amended statement at an input started in 2025. -/
theorem no_acconti_witness :
    resolvedStartYear start2025Input = YearV.num 2025 ∧
    (((calculateSRLTaxes start2025Input 0).iresFirstAcconto = 0 ∧
      (calculateSRLTaxes start2025Input 0).iresSecondAcconto = 0 ∧
      (calculateSRLTaxes start2025Input 0).irapFirstAcconto = 0 ∧
      (calculateSRLTaxes start2025Input 0).irapSecondAcconto = 0) ∧
     (calculateSRLTaxes start2025Input 0).accontiDetails.isNewBusiness = true ∧
     ∀ e ∈ (calculateSRLTaxes start2025Input 0).calendar2025,
       e.category ≠ Category.IRES ∧ e.category ≠ Category.IRAP) :=
  ⟨rfl, no_acconti_of_startYear_ge_2025 start2025Input 0 2025 rfl (le_refl 2025)⟩

end SRLTax

namespace SRLTax

/-! ### Claim C6 -/

/-- The result with `accontiDetails.isNewBusiness` overwritten. -/
def setIsNewBusiness (r : SRLTaxCalculationResult) (b : Bool) : SRLTaxCalculationResult :=
  { r with accontiDetails := { r.accontiDetails with isNewBusiness := b } }

/-- Claim C6 counterexample: with no `startYear` and an unparseable
`startDate`, the resolved start year is `NaN`, not the default 2025: both
`startYear <= 2024` and `startYear >= 2025` are false, so
`accontiDetails.isNewBusiness` is `false`, whereas the default start year
2025 makes it `true` — the computation does not behave as if 2025 had been
supplied. -/
def unparseableInput : SRLTaxCalculationInput := { zeroInput with startDate := some none }

theorem unparseable_startDate_cex :
    (calculateSRLTaxes unparseableInput 0).accontiDetails.isNewBusiness = false ∧
    (calculateSRLTaxes zeroInput 0).accontiDetails.isNewBusiness = true ∧
    calculateSRLTaxes unparseableInput 0 ≠ calculateSRLTaxes zeroInput 0 := by
  refine ⟨by with_unfolding_all rfl, by with_unfolding_all rfl, fun h => ?_⟩
  have hc := congrArg (fun r => r.accontiDetails.isNewBusiness) h
  simp only at hc
  have hfalse : (calculateSRLTaxes unparseableInput 0).accontiDetails.isNewBusiness = false := by
    with_unfolding_all rfl
  have htrue : (calculateSRLTaxes zeroInput 0).accontiDetails.isNewBusiness = true := by
    with_unfolding_all rfl
  rw [hfalse, htrue] at hc
  exact Bool.false_ne_true hc

/-- Claim C6 (amended): an unparseable start-date string does not crash the
computation (the embedding is a total function); the resolved start year is
`NaN`, whose comparisons are all false, and the output agrees with the one
obtained by supplying the default start year 2025 explicitly in every field
except `accontiDetails.isNewBusiness`, which is `false` instead of `true`
(in particular all installments are 0 and no IRES/IRAP calendar events are
produced, exactly as with start year 2025). -/
theorem unparseable_startDate_nan (i : SRLTaxCalculationInput) (t : ℤ)
    (h1 : i.startYear = none) (h2 : i.startDate = some none) :
    resolvedStartYear i = YearV.nan ∧
    calculateSRLTaxes i t
      = setIsNewBusiness (calculateSRLTaxes { i with startYear := some 2025 } t) false := by
  have hnan : resolvedStartYear i = YearV.nan := by
    unfold resolvedStartYear startYearFromDate
    rw [h1, h2]
  have hnew : isNewBusiness2025B i = false := by
    unfold isNewBusiness2025B
    rw [hnan]
    rfl
  have hprev : usePreviousYearData i = false := by
    unfold usePreviousYearData
    rw [hnan]
    rfl
  have hguard : accontiGuard i = false := by
    unfold accontiGuard
    rw [hnew, hprev]
    rfl
  have hnew' : isNewBusiness2025B { i with startYear := some 2025 } = true := rfl
  have hguard' : accontiGuard { i with startYear := some 2025 } = false := rfl
  have ha1 : iresFirstAccontoQ i = 0 := by simp [iresFirstAccontoQ, hguard]
  have ha2 : iresSecondAccontoQ i = 0 := by simp [iresSecondAccontoQ, hguard]
  have ha3 : irapFirstAccontoQ i = 0 := by simp [irapFirstAccontoQ, hguard]
  have ha4 : irapSecondAccontoQ i = 0 := by simp [irapSecondAccontoQ, hguard]
  have ha1' : iresFirstAccontoQ { i with startYear := some 2025 } = 0 := by
    simp [iresFirstAccontoQ, hguard']
  have ha2' : iresSecondAccontoQ { i with startYear := some 2025 } = 0 := by
    simp [iresSecondAccontoQ, hguard']
  have ha3' : irapFirstAccontoQ { i with startYear := some 2025 } = 0 := by
    simp [irapFirstAccontoQ, hguard']
  have ha4' : irapSecondAccontoQ { i with startYear := some 2025 } = 0 := by
    simp [irapSecondAccontoQ, hguard']
  have hcalflag : ∀ (v : List VatDeadline) (n : ℚ) (fy : ℤ),
      createFiscalCalendar2025 0 0 0 0 v n fy false
        = createFiscalCalendar2025 0 0 0 0 v n fy true := by
    intro v n fy
    unfold createFiscalCalendar2025
    norm_num
  have hcal : calendarOf i = calendarOf { i with startYear := some 2025 } := by
    unfold calendarOf
    rw [ha1, ha2, ha3, ha4, hnew, ha1', ha2', ha3', ha4', hnew']
    exact hcalflag _ _ _
  refine ⟨hnan, ?_⟩
  unfold calculateSRLTaxes setIsNewBusiness
  rw [hcal, ha1, ha2, ha3, ha4, hnew, hprev, ha1', ha2', ha3', ha4']
  rfl

/-- Claim C6 witness: the amended statement at the concrete unparseable
input. -/
theorem unparseable_startDate_witness :
    unparseableInput.startYear = none ∧
    resolvedStartYear unparseableInput = YearV.nan ∧
    calculateSRLTaxes unparseableInput 0
      = setIsNewBusiness
          (calculateSRLTaxes { unparseableInput with startYear := some 2025 } 0) false :=
  ⟨rfl, (unparseable_startDate_nan unparseableInput 0 rfl rfl).1,
   (unparseable_startDate_nan unparseableInput 0 rfl rfl).2⟩

end SRLTax

namespace SRLTax

/-! ### Claim C7 -/

/-- The spec's eligible premiale scenario: all five conditions hold. -/
def premialeBaseInput : SRLTaxCalculationInput :=
  { zeroInput with
    fiscalYear := some 2025, utile2024 := some 100000,
    investimentiPrevisti := some 25000, mediaULA2022_2024 := some 5,
    dipendentiTempo2024 := some 5, nuoveAssunzioni2025 := some 1, hasUsedCIG := some false }

/-- Eligible base with condition 1 (reserved profit) broken alone. -/
def blockReserveInput : SRLTaxCalculationInput :=
  { premialeBaseInput with utile2024 := some 0 }

/-- Eligible base with condition 2 (qualifying investment) broken alone. -/
def blockInvestInput : SRLTaxCalculationInput :=
  { premialeBaseInput with investimentiPrevisti := some 10000 }

/-- Eligible base with condition 3 (headcount level) broken alone. -/
def blockHeadcountInput : SRLTaxCalculationInput :=
  { premialeBaseInput with mediaULA2022_2024 := some 0 }

/-- Eligible base with condition 4 (new hires) broken alone. -/
def blockHiresInput : SRLTaxCalculationInput :=
  { premialeBaseInput with nuoveAssunzioni2025 := some 0 }

/-- Eligible base with condition 5 (no CIG) broken alone. -/
def blockCIGInput : SRLTaxCalculationInput :=
  { premialeBaseInput with hasUsedCIG := some true }

set_option maxRecDepth 100000 in
/-- Claim C7: the preferential rate 0.20 applies if and only if the input's
fiscal year is (explicitly) 2025 and all five eligibility conditions hold;
otherwise the rate is 0.24.  The five concrete inputs witness that each
condition can independently block eligibility: each breaks exactly one
condition of the eligible base scenario and forces the standard rate. -/
theorem iresRate_premiale_iff :
    (∀ (i : SRLTaxCalculationInput) (t : ℤ),
      ((calculateSRLTaxes i t).iresRate = 0.20 ↔
        i.fiscalYear = some 2025 ∧ condition1 i = true ∧ condition2 i = true ∧
        condition3 i = true ∧ condition4 i = true ∧ condition5 i = true)) ∧
    (condition1 blockReserveInput = false ∧ condition2 blockReserveInput = true ∧
     condition3 blockReserveInput = true ∧ condition4 blockReserveInput = true ∧
     condition5 blockReserveInput = true ∧
     (calculateSRLTaxes blockReserveInput 0).iresRate = 0.24) ∧
    (condition2 blockInvestInput = false ∧ condition1 blockInvestInput = true ∧
     condition3 blockInvestInput = true ∧ condition4 blockInvestInput = true ∧
     condition5 blockInvestInput = true ∧
     (calculateSRLTaxes blockInvestInput 0).iresRate = 0.24) ∧
    (condition3 blockHeadcountInput = false ∧ condition1 blockHeadcountInput = true ∧
     condition2 blockHeadcountInput = true ∧ condition4 blockHeadcountInput = true ∧
     condition5 blockHeadcountInput = true ∧
     (calculateSRLTaxes blockHeadcountInput 0).iresRate = 0.24) ∧
    (condition4 blockHiresInput = false ∧ condition1 blockHiresInput = true ∧
     condition2 blockHiresInput = true ∧ condition3 blockHiresInput = true ∧
     condition5 blockHiresInput = true ∧
     (calculateSRLTaxes blockHiresInput 0).iresRate = 0.24) ∧
    (condition5 blockCIGInput = false ∧ condition1 blockCIGInput = true ∧
     condition2 blockCIGInput = true ∧ condition3 blockCIGInput = true ∧
     condition4 blockCIGInput = true ∧
     (calculateSRLTaxes blockCIGInput 0).iresRate = 0.24) := by
  refine ⟨?_, ?_, ?_, ?_, ?_, ?_⟩
  · intro i t
    show iresRateQ i = 0.20 ↔ _
    unfold iresRateQ
    constructor
    · intro h
      by_cases hc : ((checkIresPremialeConditions i).isApplicable
          && decide (resolvedFiscalYear i = 2025)) = true
      · rcases Bool.and_eq_true_iff.mp hc with ⟨happ, _⟩
        unfold checkIresPremialeConditions at happ
        split at happ
        · exact absurd happ (by simp)
        · have hfy : i.fiscalYear = some 2025 := not_not.mp ‹¬ i.fiscalYear ≠ some 2025›
          simp only [Bool.and_eq_true] at happ
          exact ⟨hfy, happ.1.1.1.1, happ.1.1.1.2, happ.1.1.2, happ.1.2, happ.2⟩
      · rw [if_neg hc] at h
        norm_num at h
    · rintro ⟨hfy, hc1, hc2, hc3, hc4, hc5⟩
      have happ : (checkIresPremialeConditions i).isApplicable = true := by
        unfold checkIresPremialeConditions
        rw [if_neg (by simp [hfy])]
        show (condition1 i && condition2 i && condition3 i && condition4 i && condition5 i)
            = true
        rw [hc1, hc2, hc3, hc4, hc5]
        rfl
      have hfy' : resolvedFiscalYear i = 2025 := by
        simp [resolvedFiscalYear, jsOrI, hfy]
      have hcond : ((checkIresPremialeConditions i).isApplicable
          && decide (resolvedFiscalYear i = 2025)) = true := by
        rw [happ, hfy']
        simp
      rw [if_pos hcond]
  · with_unfolding_all decide
  · with_unfolding_all decide
  · with_unfolding_all decide
  · with_unfolding_all decide
  · with_unfolding_all decide

/-- Claim C7 witness: the eligible scenario receives the 0.20 rate, via the
iff. -/
theorem iresRate_premiale_witness :
    condition1 premialeBaseInput = true ∧
    (calculateSRLTaxes premialeBaseInput 0).iresRate = 0.20 :=
  ⟨by with_unfolding_all rfl,
   (iresRate_premiale_iff.1 premialeBaseInput 0).mpr
     ⟨rfl, by with_unfolding_all rfl, by with_unfolding_all rfl, by with_unfolding_all rfl,
      by with_unfolding_all rfl, by with_unfolding_all rfl⟩⟩

/-! ### Claim C8 -/

/-- Claim C8: under `TRIMESTRALE` the result has exactly four deadlines of
equal (rounded) amount whose pre-rounding amounts sum exactly to the total
VAT amount, and whose recorded amounts sum to it within rounding (≤ 1/50);
under `MENSILE`, twelve such deadlines (within 3/50); under any other
regime code, no deadlines at all, while the frequency used for the
quarterly-equivalent amount defaults to 4, so `vatQuarterly = vatAmount`. -/
theorem vatDeadlines_by_regime :
    ∀ (i : SRLTaxCalculationInput) (t : ℤ),
    (i.vatRegime = "TRIMESTRALE" →
      (calculateSRLTaxes i t).vatDeadlines.length = 4 ∧
      (∀ d ∈ (calculateSRLTaxes i t).vatDeadlines, d.amount = round2 (vatAmountQ i / 4)) ∧
      ((vatDeadlinesOf i).map VatDeadline.amount).sum = vatAmountQ i ∧
      |(((calculateSRLTaxes i t).vatDeadlines.map VatDeadline.amount).sum) - vatAmountQ i|
        ≤ 1/50) ∧
    (i.vatRegime = "MENSILE" →
      (calculateSRLTaxes i t).vatDeadlines.length = 12 ∧
      (∀ d ∈ (calculateSRLTaxes i t).vatDeadlines, d.amount = round2 (vatAmountQ i / 12)) ∧
      ((vatDeadlinesOf i).map VatDeadline.amount).sum = vatAmountQ i ∧
      |(((calculateSRLTaxes i t).vatDeadlines.map VatDeadline.amount).sum) - vatAmountQ i|
        ≤ 3/50) ∧
    (i.vatRegime ≠ "TRIMESTRALE" → i.vatRegime ≠ "MENSILE" →
      (calculateSRLTaxes i t).vatDeadlines = [] ∧ vatFrequencyOf i = 4 ∧
      (calculateSRLTaxes i t).vatQuarterly = (calculateSRLTaxes i t).vatAmount) := by
  intro i t
  have hcalc : (calculateSRLTaxes i t).vatDeadlines
      = (vatDeadlinesOf i).map (fun d => ⟨d.date, round2 d.amount, d.type⟩) := rfl
  refine ⟨fun hT => ?_, fun hM => ?_, fun hnT hnM => ?_⟩
  · have hds : vatDeadlinesOf i
        = [⟨⟨16, 4, resolvedFiscalYear i⟩, vatAmountQ i / 4,
            "IVA Q1 " ++ toString (resolvedFiscalYear i)⟩,
           ⟨⟨16, 7, resolvedFiscalYear i⟩, vatAmountQ i / 4,
            "IVA Q2 " ++ toString (resolvedFiscalYear i)⟩,
           ⟨⟨16, 10, resolvedFiscalYear i⟩, vatAmountQ i / 4,
            "IVA Q3 " ++ toString (resolvedFiscalYear i)⟩,
           ⟨⟨16, 1, resolvedFiscalYear i + 1⟩, vatAmountQ i / 4,
            "IVA Q4 " ++ toString (resolvedFiscalYear i)⟩] := by
      unfold vatDeadlinesOf calculateVATDeadlines
      rw [hT]
      with_unfolding_all rfl
    have herr := round2_err (vatAmountQ i / 4)
    rw [abs_le] at herr
    refine ⟨?_, ?_, ?_, ?_⟩
    · rw [hcalc, hds]
      rfl
    · intro d hd
      rw [hcalc, hds] at hd
      simp only [List.map_cons, List.map_nil, List.mem_cons, List.not_mem_nil, or_false] at hd
      rcases hd with rfl | rfl | rfl | rfl <;> rfl
    · rw [hds]
      simp only [List.map_cons, List.map_nil, List.sum_cons, List.sum_nil]
      ring
    · rw [hcalc, hds]
      simp only [List.map_cons, List.map_nil, List.sum_cons, List.sum_nil]
      rw [abs_le]
      constructor <;> linarith
  · have hds : vatDeadlinesOf i
        = (List.range 12).map (fun (m : ℕ) =>
            let month : ℤ := (m : ℤ) + 1
            let paymentMonth := if month = 12 then 1 else month + 1
            let paymentYear := if month = 12 then resolvedFiscalYear i + 1
              else resolvedFiscalYear i
            ⟨⟨16, paymentMonth, paymentYear⟩, vatAmountQ i / 12,
             "IVA " ++ getMonthName m ++ " " ++ toString (resolvedFiscalYear i)⟩) := by
      unfold vatDeadlinesOf calculateVATDeadlines
      rw [hM]
      with_unfolding_all rfl
    have hr : List.range 12 = [0, 1, 2, 3, 4, 5, 6, 7, 8, 9, 10, 11] := rfl
    have herr := round2_err (vatAmountQ i / 12)
    rw [abs_le] at herr
    refine ⟨?_, ?_, ?_, ?_⟩
    · rw [hcalc, hds, hr]
      rfl
    · intro d hd
      rw [hcalc, hds, hr] at hd
      simp only [List.map_cons, List.map_nil, List.mem_cons, List.not_mem_nil, or_false] at hd
      rcases hd with rfl | rfl | rfl | rfl | rfl | rfl | rfl | rfl | rfl | rfl | rfl | rfl <;> rfl
    · rw [hds, hr]
      simp only [List.map_cons, List.map_nil, List.sum_cons, List.sum_nil]
      ring
    · rw [hcalc, hds, hr]
      simp only [List.map_cons, List.map_nil, List.sum_cons, List.sum_nil]
      rw [abs_le]
      constructor <;> linarith
  · have hds : vatDeadlinesOf i = [] := by
      unfold vatDeadlinesOf calculateVATDeadlines
      rw [if_neg hnT, if_neg hnM]
    have hfreq : vatFrequencyOf i = 4 := by
      unfold vatFrequencyOf VAT_REGIMES
      rw [if_neg hnM, if_neg hnT]
      rfl
    refine ⟨?_, hfreq, ?_⟩
    · rw [hcalc, hds]
      rfl
    · show round2 (vatQuarterlyQ i) = round2 (vatAmountQ i)
      unfold vatQuarterlyQ
      rw [hfreq]
      norm_num

/-! ### Claim C9 -/

/-- Claim C9: on non-positive pre-loss income no losses are consumed and
the ordinary balance is returned unchanged; on positive income the losses
used decompose as first-three-year losses (applied first, capped only by
the full income) plus ordinary losses (capped by both the available amount
and 80% of the income remaining after the first-three-year losses), and
usage never exceeds the available amount in either category. -/
theorem lossesUsage_spec : ∀ (reddito : ℚ) (i : SRLTaxCalculationInput),
    (reddito ≤ 0 →
      calculateLossesUsage reddito i = ⟨0, jsOrQ i.perditePregresseOrdinarie 0⟩) ∧
    (0 < reddito →
      (calculateLossesUsage reddito i).lossesUsed
          = perditePrimi3UsedQ reddito i + perditeOrdinarieUsedQ reddito i ∧
      (calculateLossesUsage reddito i).remainingLosses
          = jsOrQ i.perditePregresseOrdinarie 0 - perditeOrdinarieUsedQ reddito i ∧
      perditePrimi3UsedQ reddito i ≤ jsOrQ i.perditePrimi3Esercizi 0 ∧
      perditePrimi3UsedQ reddito i ≤ reddito ∧
      perditeOrdinarieUsedQ reddito i ≤ jsOrQ i.perditePregresseOrdinarie 0 ∧
      perditeOrdinarieUsedQ reddito i ≤ (reddito - perditePrimi3UsedQ reddito i) * 0.8) := by
  intro reddito i
  constructor
  · intro h
    unfold calculateLossesUsage
    rw [if_pos h]
  · intro h
    have hn : ¬ (reddito ≤ 0) := not_le.mpr h
    unfold calculateLossesUsage
    rw [if_neg hn]
    exact ⟨rfl, rfl, min_le_left _ _, min_le_right _ _, min_le_left _ _, min_le_right _ _⟩

/-! ### Claim C10 -/

/-- Claim C10: for every input — negative financials included — the
reported tax and contribution amounts are nonnegative: every taxable base
is floored at zero, the rates are positive, VAT is floored before the
(positive-only) debt add-on, and the INPS branches fire only on positive
inputs. -/
theorem amounts_nonneg : ∀ (i : SRLTaxCalculationInput) (t : ℤ),
    0 ≤ (calculateSRLTaxes i t).iresAmount ∧
    0 ≤ (calculateSRLTaxes i t).irapAmount ∧
    0 ≤ (calculateSRLTaxes i t).vatAmount ∧
    0 ≤ (calculateSRLTaxes i t).inpsAdmin ∧
    0 ≤ (calculateSRLTaxes i t).inpsEmployees ∧
    0 ≤ (calculateSRLTaxes i t).inpsTotalAmount ∧
    0 ≤ (calculateSRLTaxes i t).totalTaxes ∧
    0 ≤ (calculateSRLTaxes i t).totalDue := by
  intro i t
  exact ⟨round2_nonneg (iresAmountQ_nonneg i), round2_nonneg (irapAmountQ_nonneg i),
    round2_nonneg (vatAmountQ_nonneg i), round2_nonneg (inpsAdminQ_nonneg i),
    round2_nonneg (inpsEmployeesQ_nonneg i), round2_nonneg (inpsTotalQ_nonneg i),
    round2_nonneg (totalTaxesQ_nonneg i), round2_nonneg (totalDueQ_nonneg i)⟩

end SRLTax
